import Mathlib

/-!
Shallow embedding of the store-provisioning backend
(`backend/app/kubernetes_manager.py`, `backend/app/store_manager.py`,
`backend/app/models.py`, `backend/app/main.py`).

The cluster control plane is modelled as an explicit state (a list of
namespace records).  External effects (helm installs, in-pod commands,
namespace operations) are recorded in an action trace; outcomes of the
external command-line tools are supplied by an environment record, since
they are decided outside this repository.  Randomness (the two generated
passwords) and the clock (the creation timestamp) enter as parameters.
-/

set_option autoImplicit false

namespace Urumi

/-- A single quotation mark character, used in error strings such as
`Store ... already exists` without writing the character literally. -/
def sq : String := String.singleton (Char.ofNat 39)

/-! ### Python dictionaries as association lists

`dict.update` iterates the update dictionary, overwriting existing keys in
place and appending new ones; `dictGet` is first-match lookup (association
lists built this way never hold a key twice when the base does not). -/

abbrev Dict := List (String × String)

def dictGet : Dict → String → Option String
  | [], _ => none
  | (a, b) :: rest, k => if a = k then some b else dictGet rest k

def containsKey (d : Dict) (k : String) : Bool :=
  d.any (fun p => p.1 == k)

/-- Replace the value stored under `k` (dictionary key assignment on a
present key keeps the position and changes the value). -/
def overwrite (k v : String) : Dict → Dict
  | [] => []
  | (a, b) :: rest =>
      if a = k then (a, v) :: overwrite k v rest else (a, b) :: overwrite k v rest

def dictInsert (d : Dict) (k v : String) : Dict :=
  if containsKey d k then overwrite k v d else d ++ [(k, v)]

/-- Python `base.update(upd)`: fold the update entries into the base. -/
def dictUpdate (base upd : Dict) : Dict :=
  upd.foldl (fun acc kv => dictInsert acc kv.1 kv.2) base

/-! ### Cluster state

A pod carries its container statuses (the wrapper derives the snapshot
readiness flag from them, `kubernetes_manager.py` line 145); a namespace
record carries the labels, annotations, phase and pods the wrapper reads. -/

structure ContainerStatus where
  ready : Bool
deriving DecidableEq

structure Pod where
  name : String
  phase : String
  container_statuses : List ContainerStatus
deriving DecidableEq

structure NamespaceRec where
  name : String
  labels : Dict
  annotations : Dict
  phase : String
  creation_timestamp : Option String
  pods : List Pod
deriving DecidableEq

abbrev Cluster := List NamespaceRec

/-! ### KubernetesManager (`kubernetes_manager.py`) -/

/-- The `store-` namespace naming convention (used by every method). -/
def nsName (name : String) : String := "store-" ++ name

/-- Default label set, `kubernetes_manager.py` lines 46-50. -/
def default_labels (name : String) : Dict :=
  [("app", "store"), ("store-name", name), ("managed-by", "store-provisioning-platform")]

/-- The namespace body submitted by `create_namespace`
(`kubernetes_manager.py` lines 44-66): merge caller labels over the
defaults, caller annotations over an empty set, omit the annotations
block when the merged set is empty. -/
structure NsBody where
  name : String
  labels : Dict
  annotations : Option Dict
deriving DecidableEq

def create_namespace_body (name : String) (labels : Option Dict)
    (annotations : Option Dict) : NsBody :=
  let merged :=
    match labels with
    | none => default_labels name
    | some l => dictUpdate (default_labels name) l
  let mergedAnnotations :=
    match annotations with
    | none => []
    | some a => dictUpdate [] a
  { name := nsName name
    labels := merged
    annotations := if mergedAnnotations.isEmpty then none else some mergedAnnotations }

/-- Outcome reported by the control plane for the create call; the status
code of an `ApiException` is the discriminant the source inspects. -/
inductive ApiResult where
  | success
  | apiError (status : Nat) (msg : String)
deriving DecidableEq

/-- Model of `KubernetesManager.create_namespace` (`kubernetes_manager.py` lines
32-75): true on success, false on a 409 duplicate-resource error,
re-raise (modelled as `Except.error`) on any other `ApiException`. -/
def create_namespace (name : String) (labels : Option Dict)
    (annotations : Option Dict) (api : ApiResult) : Except (Nat × String) Bool :=
  let _body := create_namespace_body name labels annotations
  match api with
  | .success => .ok true
  | .apiError s m => if s == 409 then .ok false else .error (s, m)

/-- Row shape returned by `list_store_namespaces`
(`kubernetes_manager.py` lines 90-96). -/
structure NsInfo where
  name : String
  store_name : String
  created : Option String
  created_at : Option String
  status : String
deriving DecidableEq

/-- Model of `KubernetesManager.list_store_namespaces` (`kubernetes_manager.py`
lines 77-101): the control plane filters by the label selector
`app=store`; each row takes the store name from the `store-name` label
with default `unknown`, the raw creation timestamp, the creation
annotation value, and the phase. -/
def list_store_namespaces (c : Cluster) : List NsInfo :=
  (c.filter (fun ns => dictGet ns.labels "app" == some "store")).map fun ns =>
    { name := ns.name
      store_name := (dictGet ns.labels "store-name").getD "unknown"
      created := ns.creation_timestamp
      created_at := dictGet ns.annotations "store.urumi.ai/created-at"
      status := ns.phase }

/-- Model of `KubernetesManager.namespace_exists` (`kubernetes_manager.py` lines
103-112): a read of namespace `store-<name>`, true iff found. -/
def namespace_exists (c : Cluster) (name : String) : Bool :=
  c.any (fun r => r.name == nsName name)

/-- Model of `KubernetesManager.delete_namespace` (`kubernetes_manager.py` lines
114-134): removes `store-<name>` and returns true; returns false (not an
error) when the namespace is not found. -/
def delete_namespace (c : Cluster) (name : String) : Cluster × Bool :=
  if namespace_exists c name then
    (c.filter (fun r => !(r.name == nsName name)), true)
  else
    (c, false)

/-- Model of `KubernetesManager.get_pods_in_namespace` (`kubernetes_manager.py`
lines 136-151): one snapshot per pod; readiness is true only when every
reported container status is ready, false when no container statuses
exist.  A missing namespace yields the empty list (the `ApiException`
branch returns `[]`). -/
structure PodInfo where
  name : String
  status : String
  ready : Bool
deriving DecidableEq

def get_pods_in_namespace (c : Cluster) (name : String) : List PodInfo :=
  match c.find? (fun r => r.name == nsName name) with
  | none => []
  | some r =>
      r.pods.map fun p =>
        { name := p.name
          status := p.phase
          ready := if p.container_statuses.isEmpty then false
                   else p.container_statuses.all (fun cs => cs.ready) }

/-! ### StoreManager (`store_manager.py`)

Provisioning effects are recorded in a trace.  The `helm version`
presence probe and the `kubectl` pod-name reads are pure probes and are
not traced; traced actions are the ones the claims reason about:
namespace creation/deletion, the helm install and uninstall commands,
the plugin-install attempts, the retry sleeps, and the payment step. -/

inductive Action where
  | createNs (ns : String)
  | helmInstall (cmd : List String)
  | wooAttempt (attempt : Nat)
  | sleep (seconds : Nat)
  | enableCod
  | helmUninstall (release : String)
  | deleteNs (ns : String)
deriving DecidableEq

/-- Outcome of one `_install_woocommerce` call: a true return, a false
return, or a raised exception (the source handles all three,
`store_manager.py` lines 126-139). -/
inductive WooOutcome where
  | ok
  | fail
  | exn (msg : String)
deriving DecidableEq

/-- Outcomes of the external tools consulted during `create_store`:
whether `helm version` succeeds, the result of the blocking
`helm install` (error text on non-zero exit), the per-attempt outcome of
the plugin install, and the payment-enable outcome. -/
structure CreateEnv where
  helmInstalled : Bool
  helmResult : Except String Unit
  woo : Nat → WooOutcome
  codOk : Bool

structure Credentials where
  username : String
  password : String
deriving DecidableEq

/-- The result payload of `create_store` (`store_manager.py` lines
150-162). -/
structure StoreResult where
  store_name : String
  namespace_ : String
  url : String
  admin_url : String
  owner_email : String
  created_at : String
  credentials : Credentials
  woocommerce_installed : Bool
deriving DecidableEq

/-- The helm install command assembled at `store_manager.py` lines
95-110. -/
def helm_install_cmd (store_name owner_email admin_password db_password : String) :
    List String :=
  ["helm", "install", store_name, "bitnami/wordpress",
   "--namespace", nsName store_name,
   "--set", "wordpressUsername=admin",
   "--set", "wordpressPassword=" ++ admin_password,
   "--set", "wordpressEmail=" ++ owner_email,
   "--set", "wordpressBlogName=" ++ store_name ++ " Store",
   "--set", "mariadb.auth.password=" ++ db_password,
   "--set", "ingress.enabled=true",
   "--set", "ingress.ingressClassName=nginx",
   "--set", "ingress.hostname=" ++ store_name ++ ".localhost",
   "--set", "persistence.size=5Gi",
   "--set", "mariadb.primary.persistence.size=3Gi",
   "--wait", "--timeout=5m"]

/-- The plugin-install retry loop (`store_manager.py` lines 124-139),
iterating `attempt` over `range(max_retries)` with the remaining
iteration count as fuel.  A true return sets the installed flag and
breaks; a false return moves straight to the next attempt; a raised
exception sleeps 10 seconds first, except on the last attempt. -/
def wooLoopGo (env : Nat → WooOutcome) (maxRetries : Nat) :
    Nat → Nat → Bool × List Action
  | _, 0 => (false, [])
  | attempt, fuel + 1 =>
    match env attempt with
    | .ok => (true, [Action.wooAttempt attempt])
    | .fail =>
        let r := wooLoopGo env maxRetries (attempt + 1) fuel
        (r.1, Action.wooAttempt attempt :: r.2)
    | .exn _ =>
        if attempt < maxRetries - 1 then
          let r := wooLoopGo env maxRetries (attempt + 1) fuel
          (r.1, Action.wooAttempt attempt :: Action.sleep 10 :: r.2)
        else
          let r := wooLoopGo env maxRetries (attempt + 1) fuel
          (r.1, Action.wooAttempt attempt :: r.2)

def wooLoop (env : Nat → WooOutcome) (maxRetries : Nat) : Bool × List Action :=
  wooLoopGo env maxRetries 0 maxRetries

/-- The namespace record created in step 1 of `create_store`
(`store_manager.py` lines 83-91): default labels, the owner-email and
created-at annotations, and a fresh active namespace. -/
def created_ns_rec (store_name owner_email created_timestamp : String) : NamespaceRec :=
  { name := nsName store_name
    labels := default_labels store_name
    annotations := [("owner-email", owner_email),
                    ("store.urumi.ai/created-at", created_timestamp)]
    phase := "Active"
    creation_timestamp := some created_timestamp
    pods := [] }

/-- Model of `StoreManager.create_store` (`store_manager.py` lines 50-171).
Returns the result (or raised error text), the cluster after the call,
and the trace of provisioning actions.  In this sequential model the
namespace-create call succeeds exactly when the existence check just
before it found nothing, so its failure branch (line 91, routed through
the outer handler at lines 164-171) is unreachable but kept faithful to
the source.  The compensating deletes never raise here, matching the
expected not-found/deleted control-plane answers; the outer handler
would swallow their errors (lines 167-170). -/
def create_store (c : Cluster) (env : CreateEnv)
    (store_name owner_email admin_password db_password created_timestamp : String) :
    Except String StoreResult × Cluster × List Action :=
  if !env.helmInstalled then
    (.error "Helm is not installed or not in PATH", c, [])
  else if namespace_exists c store_name then
    (.error ("Store " ++ sq ++ store_name ++ sq ++ " already exists"), c, [])
  else
    -- Step 1: create namespace with the owner/timestamp annotations.
    let nsRec := created_ns_rec store_name owner_email created_timestamp
    let (c1, created) :=
      if namespace_exists c store_name then (c, false) else (c ++ [nsRec], true)
    let acts1 := [Action.createNs (nsName store_name)]
    if !created then
      let (c2, _) := delete_namespace c1 store_name
      (.error ("Failed to create namespace " ++ nsName store_name), c2,
        acts1 ++ [Action.deleteNs (nsName store_name)])
    else
      -- Step 2: helm install (blocking).
      let cmd := helm_install_cmd store_name owner_email admin_password db_password
      let acts2 := acts1 ++ [Action.helmInstall cmd]
      match env.helmResult with
      | .error stderr =>
          -- Inner cleanup (line 117), then the raise reaches the outer
          -- handler which deletes again best-effort (line 168) and
          -- re-raises the helm error.
          let (c2, _) := delete_namespace c1 store_name
          let (c3, _) := delete_namespace c2 store_name
          (.error ("Helm installation failed: " ++ stderr), c3,
            acts2 ++ [Action.deleteNs (nsName store_name), Action.deleteNs (nsName store_name)])
      | .ok _ =>
          -- Step 3: plugin install with up to 5 attempts.
          let wooRes := wooLoop env.woo 5
          -- Step 4: enable Cash on Delivery only when the plugin installed;
          -- its failure is logged and ignored (lines 142-147).
          let acts4 := if wooRes.1 then [Action.enableCod] else []
          (.ok { store_name := store_name
                 namespace_ := nsName store_name
                 url := "http://" ++ store_name ++ ".localhost"
                 admin_url := "http://" ++ store_name ++ ".localhost/wp-admin"
                 owner_email := owner_email
                 created_at := created_timestamp
                 credentials := { username := "admin", password := admin_password }
                 woocommerce_installed := true },  -- literal True at line 161
            c1, acts2 ++ wooRes.2 ++ acts4)

/-- Store summary built by `list_stores` (`store_manager.py` lines
286-294). -/
structure StoreSummary where
  name : String
  namespace_ : String
  url : String
  admin_url : String
  created : Option String
  created_at : Option String
  status : String
deriving DecidableEq

/-- Model of `StoreManager.list_stores` (`store_manager.py` lines 270-296): skip
namespaces whose phase is `Terminating`, map the rest to summaries. -/
def list_stores (c : Cluster) : List StoreSummary :=
  ((list_store_namespaces c).filter (fun ns => !(ns.status == "Terminating"))).map fun ns =>
    { name := ns.store_name
      namespace_ := ns.name
      url := "http://" ++ ns.store_name ++ ".localhost"
      admin_url := "http://" ++ ns.store_name ++ ".localhost/wp-admin"
      created := ns.created
      created_at := ns.created_at
      status := ns.status }

/-- Model of `StoreManager.delete_store` (`store_manager.py` lines 298-333): helm
uninstall first (failure only logged), then namespace deletion; raises
only when the namespace deletion reports failure. -/
def delete_store (c : Cluster) (_helmUninstallOk : Bool) (store_name : String) :
    Except String Bool × Cluster × List Action :=
  let acts1 := [Action.helmUninstall store_name]
  let (c2, ok) := delete_namespace c store_name
  let acts2 := acts1 ++ [Action.deleteNs (nsName store_name)]
  if ok then (.ok true, c2, acts2)
  else (.error ("Failed to delete namespace " ++ nsName store_name), c2, acts2)

/-- Shape of the `get_store_status` result (`store_manager.py` lines
345-354): a bare `exists: false` object, or the pod snapshot plus the
ready flag. -/
inductive StoreStatus where
  | absent
  | present (pods : List PodInfo) (ready : Bool)
deriving DecidableEq

/-- Model of `StoreManager.get_store_status` (`store_manager.py` lines 335-354):
ready is `all(pod.ready for pod in pods) if pods else False`. -/
def get_store_status (c : Cluster) (store_name : String) : StoreStatus :=
  if !namespace_exists c store_name then .absent
  else
    let pods := get_pods_in_namespace c store_name
    .present pods (if pods.isEmpty then false else pods.all (fun p => p.ready))

/-! ### Schema layer (`models.py`) -/

/-- One character of the `CreateStoreRequest.store_name` pattern
`[a-z0-9-]` (`models.py` line 7). -/
def valid_name_char (ch : Char) : Bool :=
  (Char.ofNat 97 ≤ ch && ch ≤ Char.ofNat 122) ||
  (Char.ofNat 48 ≤ ch && ch ≤ Char.ofNat 57) ||
  ch == Char.ofNat 45

/-- The `store_name` field constraints of `CreateStoreRequest`
(`models.py` lines 7-8): length between 3 and 20 and every character
drawn from `[a-z0-9-]` (the anchored pattern with `+` demands at least
one character, subsumed by the minimum length). -/
def valid_store_name (s : String) : Bool :=
  decide (3 ≤ s.length) && decide (s.length ≤ 20) && s.toList.all valid_name_char

/-! ### HTTP layer (`main.py`)

Endpoint handlers are modelled as functions of the cluster state, the
environment and the path/body values; `init` stands for the
`store_mgr is not None` check every handler performs.  The framework
rejection of an invalid request body (422) happens before the create
handler body runs. -/

inductive HttpOutcome (α : Type) where
  | ok (code : Nat) (body : α)
  | err (code : Nat) (detail : String)
deriving DecidableEq

/-- Body of `POST /stores` success (`main.py` lines 116-120). -/
structure CreateStoreResponse where
  status : String
  message : String
  data : StoreResult
deriving DecidableEq

/-- Detail string standing for the framework 422 validation rejection of
a `CreateStoreRequest` that violates the `models.py` constraints. -/
def unprocessable_detail : String := "Unprocessable Entity"

/-- Model of `POST /stores` (`main.py` lines 89-127) guarded by the schema layer:
the body is validated (store-name pattern/length from `models.py`; the
email check is the external validator, abstracted as `emailOk`) before
the handler runs; the handler checks initialization, calls
`StoreManager.create_store`, and maps any raised error to a 500. -/
def create_store_endpoint (init : Bool) (c : Cluster) (env : CreateEnv)
    (store_name : String) (emailOk : Bool)
    (owner_email admin_password db_password created_timestamp : String) :
    HttpOutcome CreateStoreResponse × Cluster × List Action :=
  if !(valid_store_name store_name && emailOk) then
    (.err 422 unprocessable_detail, c, [])
  else if !init then
    (.err 503 "Store Manager not initialized", c, [])
  else
    match create_store c env store_name owner_email admin_password db_password
        created_timestamp with
    | (.ok r, c2, acts) =>
        (.ok 201 { status := "success"
                   message := "Store " ++ sq ++ store_name ++ sq ++ " created successfully"
                   data := r }, c2, acts)
    | (.error e, c2, acts) =>
        (.err 500 ("Store creation failed: " ++ e), c2, acts)

/-- Body of `GET /stores/{store_name}` success (`main.py` lines
193-197). -/
structure GetStoreBody where
  store_name : String
  namespace_ : String
  status : StoreStatus
deriving DecidableEq

/-- Model of the `GET /stores/...` route (`main.py` lines 171-206): no name
validation; 404 exactly when the status object reports no namespace,
otherwise the status object wrapped with the name and `store-<name>`. -/
def get_store_status_endpoint (init : Bool) (c : Cluster) (store_name : String) :
    HttpOutcome GetStoreBody :=
  if !init then .err 503 "Store Manager not initialized"
  else
    match get_store_status c store_name with
    | .absent => .err 404 ("Store " ++ sq ++ store_name ++ sq ++ " not found")
    | .present pods ready =>
        .ok 200 { store_name := store_name
                  namespace_ := nsName store_name
                  status := .present pods ready }

/-- Body of `DELETE /stores/{store_name}` success (`main.py` lines
238-242). -/
structure DeleteStoreResponse where
  status : String
  message : String
  store_name : String
deriving DecidableEq

/-- Model of the `DELETE /stores/...` route (`main.py` lines 209-249): no name
validation; a pre-check on `namespace_exists` returns 404 before
`StoreManager.delete_store` is ever called; a raised deletion error maps
to 500. -/
def delete_store_endpoint (init : Bool) (c : Cluster) (helmUninstallOk : Bool)
    (store_name : String) :
    HttpOutcome DeleteStoreResponse × Cluster × List Action :=
  if !init then (.err 503 "Store Manager not initialized", c, [])
  else if !namespace_exists c store_name then
    (.err 404 ("Store " ++ sq ++ store_name ++ sq ++ " not found"), c, [])
  else
    match delete_store c helmUninstallOk store_name with
    | (.ok _, c2, acts) =>
        (.ok 200 { status := "success"
                   message := "Store " ++ sq ++ store_name ++ sq ++ " deleted successfully"
                   store_name := store_name }, c2, acts)
    | (.error e, c2, acts) =>
        (.err 500 ("Store deletion failed: " ++ e), c2, acts)

/-! ### Trace predicates and concrete fixtures -/

/-- Predicate picking the plugin-install attempts out of a trace. -/
def aIsWoo : Action → Bool
  | .wooAttempt _ => true
  | _ => false

/-- Predicate picking the retry sleeps out of a trace. -/
def aIsSleep : Action → Bool
  | .sleep _ => true
  | _ => false

/-- Whether an attempt outcome is a raised exception. -/
def wooIsExn : WooOutcome → Bool
  | .exn _ => true
  | _ => false

/-- Environment in which every external step succeeds. -/
def envAllOk : CreateEnv :=
  { helmInstalled := true, helmResult := .ok (), woo := fun _ => .ok, codOk := true }

/-- Environment in which every plugin-install attempt returns failure
without raising. -/
def envAllFail : CreateEnv :=
  { helmInstalled := true, helmResult := .ok (), woo := fun _ => .fail, codOk := true }

/-- Environment in which the helm install fails with captured output. -/
def envHelmFail : CreateEnv :=
  { helmInstalled := true, helmResult := .error "no space left", woo := fun _ => .fail,
    codOk := true }

/-- A pre-existing namespace for the store name `shop`. -/
def nsShop : NamespaceRec :=
  { name := "store-shop", labels := default_labels "shop", annotations := [],
    phase := "Active", creation_timestamp := none, pods := [] }

/-- The payload `create_store` produces for the `shop` fixture. -/
def shopResult : StoreResult :=
  { store_name := "shop", namespace_ := "store-shop", url := "http://shop.localhost",
    admin_url := "http://shop.localhost/wp-admin", owner_email := "a@b.c",
    created_at := "ts", credentials := ⟨"admin", "apw"⟩, woocommerce_installed := true }

/-- A ready pod, for the status witness. -/
def podReady : Pod :=
  { name := "wp-0", phase := "Running", container_statuses := [⟨true⟩] }

/-- A namespace holding one ready pod. -/
def nsShopPods : NamespaceRec :=
  { name := "store-shop", labels := default_labels "shop", annotations := [],
    phase := "Active", creation_timestamp := none, pods := [podReady] }

/-- A store namespace stuck in the `Terminating` phase. -/
def nsTermX : NamespaceRec :=
  { name := "store-x", labels := [("app", "store"), ("store-name", "x")],
    annotations := [], phase := "Terminating", creation_timestamp := none, pods := [] }

/-- A namespace whose store name violates the creation pattern (it is
uppercase and too short), present in the cluster anyway. -/
def nsAB : NamespaceRec :=
  { name := "store-AB", labels := [("app", "store")], annotations := [],
    phase := "Active", creation_timestamp := none, pods := [] }

/-! ### Helper lemmas -/

theorem string_append_assoc (a b c : String) : a ++ b ++ c = a ++ (b ++ c) := by
  apply String.ext
  simp [String.data_append, List.append_assoc]

theorem dictGet_overwrite_other (k v q : String) (d : Dict) (hq : q ≠ k) :
    dictGet (overwrite k v d) q = dictGet d q := by
  induction d with
  | nil => rfl
  | cons p rest ih =>
      obtain ⟨a, b⟩ := p
      by_cases hak : a = k
      · subst hak
        have haq : ¬ a = q := fun hh => hq hh.symm
        simp [overwrite, dictGet, ih, haq]
      · simp [overwrite, dictGet, ih, hak]

theorem dictGet_overwrite_self (k v : String) (d : Dict)
    (h : containsKey d k = true) :
    dictGet (overwrite k v d) k = some v := by
  induction d with
  | nil => simp [containsKey] at h
  | cons p rest ih =>
      obtain ⟨a, b⟩ := p
      by_cases hak : a = k
      · subst hak
        simp [overwrite, dictGet]
      · have h2 : containsKey rest k = true := by
          simp only [containsKey, List.any_cons] at h
          rcases Bool.or_eq_true_iff.mp h with h1 | h1
          · exact absurd (by simpa using h1) hak
          · exact h1
        simp [overwrite, dictGet, hak, ih h2]

theorem dictGet_append_single_other (d : Dict) (k v q : String) (hq : q ≠ k) :
    dictGet (d ++ [(k, v)]) q = dictGet d q := by
  induction d with
  | nil =>
      have hkq : ¬ k = q := fun hh => hq hh.symm
      simp [dictGet, hkq]
  | cons p rest ih =>
      obtain ⟨a, b⟩ := p
      simp [dictGet, ih]

theorem dictGet_append_single_self (d : Dict) (k v : String)
    (h : containsKey d k = false) :
    dictGet (d ++ [(k, v)]) k = some v := by
  induction d with
  | nil => simp [dictGet]
  | cons p rest ih =>
      obtain ⟨a, b⟩ := p
      simp only [containsKey, List.any_cons, Bool.or_eq_false_iff] at h
      obtain ⟨h1, h2⟩ := h
      have hak : ¬ a = k := by simpa using h1
      simp [dictGet, hak]
      exact ih h2

theorem dictGet_insert_self (d : Dict) (k v : String) :
    dictGet (dictInsert d k v) k = some v := by
  unfold dictInsert
  by_cases h : containsKey d k
  · simp [h, dictGet_overwrite_self k v d h]
  · simp [h, dictGet_append_single_self d k v (by simpa using h)]

theorem dictGet_insert_other (d : Dict) (k v q : String) (hq : q ≠ k) :
    dictGet (dictInsert d k v) q = dictGet d q := by
  unfold dictInsert
  by_cases h : containsKey d k
  · simp [h, dictGet_overwrite_other k v q d hq]
  · simp [h, dictGet_append_single_other d k v q hq]

theorem dictGet_update_of_not_mem (L : Dict) (base : Dict) (k : String)
    (h : k ∉ L.map Prod.fst) : dictGet (dictUpdate base L) k = dictGet base k := by
  induction L generalizing base with
  | nil => rfl
  | cons p rest ih =>
      obtain ⟨a, b⟩ := p
      simp only [List.map_cons, List.mem_cons, not_or] at h
      obtain ⟨h1, h2⟩ := h
      show dictGet (dictUpdate (dictInsert base a b) rest) k = dictGet base k
      rw [ih (dictInsert base a b) h2, dictGet_insert_other base a b k h1]

theorem dictGet_update_of_mem (L : Dict) (base : Dict) (k v : String)
    (hnd : (L.map Prod.fst).Nodup) (hmem : (k, v) ∈ L) :
    dictGet (dictUpdate base L) k = some v := by
  induction L generalizing base with
  | nil => cases hmem
  | cons p rest ih =>
      obtain ⟨a, b⟩ := p
      rw [List.map_cons, List.nodup_cons] at hnd
      obtain ⟨hna, hnd2⟩ := hnd
      rcases List.mem_cons.mp hmem with heq | hmem2
      · cases heq
        show dictGet (dictUpdate (dictInsert base k v) rest) k = some v
        rw [dictGet_update_of_not_mem rest (dictInsert base k v) k hna,
          dictGet_insert_self base k v]
      · exact ih (dictInsert base a b) hnd2 hmem2

theorem namespace_exists_filter_self (c : Cluster) (n : String) :
    namespace_exists (c.filter (fun r => !(r.name == nsName n))) n = false := by
  simp only [namespace_exists, List.any_eq_false]
  intro r hr
  simp only [List.mem_filter] at hr
  simpa using hr.2

theorem namespace_exists_append_self (c : Cluster) (n : String) (r : NamespaceRec)
    (h : r.name = nsName n) : namespace_exists (c ++ [r]) n = true := by
  simp [namespace_exists, List.any_append, h]

/-- Characterization of the retry loop when no attempt in range
succeeds: the installed flag stays false, every fuel step issues one
attempt, and a 10-second sleep is recorded exactly after the attempts
that raised and were not the final attempt. -/
theorem wooLoopGo_no_ok (env : Nat → WooOutcome) (m : Nat) (fuel : Nat) :
    ∀ a, (∀ i, a ≤ i → i < a + fuel → env i ≠ .ok) →
    (wooLoopGo env m a fuel).1 = false ∧
    (wooLoopGo env m a fuel).2.countP aIsWoo = fuel ∧
    (wooLoopGo env m a fuel).2.countP aIsSleep =
      ((List.range' a fuel).filter
        (fun j => wooIsExn (env j) && decide (j < m - 1))).length := by
  induction fuel with
  | zero => intro a _; simp [wooLoopGo]
  | succ fuel ih =>
      intro a h
      have ha : env a ≠ .ok := h a (le_refl a) (by omega)
      have hrest := ih (a + 1) (fun i h1 h2 => h i (by omega) (by omega))
      obtain ⟨hb, hw, hs⟩ := hrest
      rcases e : env a with _ | _ | msg
      · exact absurd e ha
      · simp only [wooLoopGo, e, List.range'_succ, List.filter_cons,
          List.countP_cons, aIsWoo, aIsSleep, wooIsExn]
        refine ⟨hb, by simpa [aIsWoo] using hw, by simpa [aIsSleep, wooIsExn] using hs⟩
      · by_cases hm : a < m - 1
        · simp only [wooLoopGo, e, if_pos hm, List.range'_succ, List.filter_cons,
            List.countP_cons]
          constructor
          · exact hb
          constructor
          · simp [aIsWoo, hw]
          · simp [aIsSleep, wooIsExn, hs, hm]
        · simp only [wooLoopGo, e, if_neg hm, List.range'_succ, List.filter_cons,
            List.countP_cons]
          constructor
          · exact hb
          constructor
          · simp [aIsWoo, hw]
          · simp [aIsSleep, wooIsExn, hs, hm]

/-! ### Claim theorems -/

/-- Claim C1: every successful create-store call returns a payload with
the store name, the namespace `store-<name>`, the URL
`http://<name>.localhost`, the admin URL `<URL>/wp-admin`, the owner
email, the creation timestamp, credentials `admin` / generated admin
password, and a plugin-installed flag that is true for every
environment, irrespective of the plugin-install outcome (the flag is the
literal `True` of `store_manager.py` line 161). -/
theorem c1_success_payload (c : Cluster) (env : CreateEnv) (n e apw dpw ts : String)
    (r : StoreResult)
    (h : (create_store c env n e apw dpw ts).1 = .ok r) :
    r.store_name = n ∧ r.namespace_ = "store-" ++ n ∧
    r.url = "http://" ++ n ++ ".localhost" ∧ r.admin_url = r.url ++ "/wp-admin" ∧
    r.owner_email = e ∧ r.created_at = ts ∧
    r.credentials = ⟨"admin", apw⟩ ∧ r.woocommerce_installed = true := by
  by_cases hh : env.helmInstalled
  · cases hns : namespace_exists c n with
    | true => simp [create_store, hh, hns] at h
    | false =>
        cases hr : env.helmResult with
        | error s => simp [create_store, hh, hns, hr] at h
        | ok u =>
            simp [create_store, hh, hns, hr] at h
            subst h
            refine ⟨rfl, rfl, rfl, ?_, rfl, rfl, rfl, rfl⟩
            have hlit : (".localhost" : String) ++ "/wp-admin" = ".localhost/wp-admin" := by
              decide
            simp only [string_append_assoc, hlit]
  · simp [create_store, hh] at h

/-- Claim C1, witness: the payload conclusions hold at the `shop`
fixture where every external step succeeds. -/
theorem c1_success_payload_witness :
    shopResult.store_name = "shop" ∧ shopResult.namespace_ = "store-" ++ "shop" ∧
    shopResult.url = "http://" ++ "shop" ++ ".localhost" ∧
    shopResult.admin_url = shopResult.url ++ "/wp-admin" ∧
    shopResult.owner_email = "a@b.c" ∧ shopResult.created_at = "ts" ∧
    shopResult.credentials = ⟨"admin", "apw"⟩ ∧
    shopResult.woocommerce_installed = true :=
  c1_success_payload [] envAllOk "shop" "a@b.c" "apw" "dpw" "ts" shopResult rfl

/-- Claim C4: with the package-manager check passing, a create-store
call for a name whose namespace already exists fails with the
already-exists error, runs no provisioning action, and leaves the
cluster unchanged. -/
theorem c4_existing_name_rejected (c : Cluster) (env : CreateEnv)
    (n e apw dpw ts : String)
    (hh : env.helmInstalled = true) (hns : namespace_exists c n = true) :
    create_store c env n e apw dpw ts =
      (.error ("Store " ++ sq ++ n ++ sq ++ " already exists"), c, []) := by
  simp [create_store, hh, hns]

/-- Claim C4, witness: the rejection at a cluster already holding
`store-shop`. -/
theorem c4_existing_name_rejected_witness :
    create_store [nsShop] envAllOk "shop" "a@b.c" "apw" "dpw" "ts" =
      (.error ("Store " ++ sq ++ "shop" ++ sq ++ " already exists"), [nsShop], []) :=
  c4_existing_name_rejected [nsShop] envAllOk "shop" "a@b.c" "apw" "dpw" "ts"
    (by decide) (by decide)

/-- Claim C3: when the helm install fails, creation fails with the
captured installer error text, the just-created namespace is deleted
(the end state holds no namespace for the store), and no further
lifecycle step runs — the trace after the install is only the
compensating deletes. -/
theorem c3_helm_failure_compensation (c : Cluster) (env : CreateEnv)
    (n e apw dpw ts stderr : String)
    (hh : env.helmInstalled = true) (hns : namespace_exists c n = false)
    (hr : env.helmResult = .error stderr) :
    ∃ c2, create_store c env n e apw dpw ts =
        (.error ("Helm installation failed: " ++ stderr), c2,
          [Action.createNs (nsName n),
           Action.helmInstall (helm_install_cmd n e apw dpw),
           Action.deleteNs (nsName n), Action.deleteNs (nsName n)]) ∧
      namespace_exists c2 n = false := by
  have h1 : namespace_exists (c ++ [created_ns_rec n e ts]) n = true :=
    namespace_exists_append_self c n _ rfl
  have hname : (created_ns_rec n e ts).name = nsName n := rfl
  refine ⟨(c ++ [created_ns_rec n e ts]).filter
      (fun r => !(r.name == nsName n)), ?_, ?_⟩
  · simp [create_store, hh, hns, hr, delete_namespace, h1, hname,
      namespace_exists_filter_self]
  · exact namespace_exists_filter_self _ _

/-- Claim C3, witness: helm failure on an empty cluster. -/
theorem c3_helm_failure_compensation_witness :
    (create_store [] envHelmFail "shop" "a@b.c" "apw" "dpw" "ts").1 =
      .error ("Helm installation failed: " ++ "no space left") := by
  obtain ⟨c2, heq, _⟩ :=
    c3_helm_failure_compensation [] envHelmFail "shop" "a@b.c" "apw" "dpw" "ts"
      "no space left" (by decide) (by decide) rfl
  rw [heq]

/-- Claim C9: the database password is never part of the returned
result: the whole result and final cluster state are unchanged when the
database password changes, and the only password a successful payload
carries is the admin password inside the credentials object. -/
theorem c9_db_password_not_returned (c : Cluster) (env : CreateEnv)
    (n e apw ts dpw dpw' : String) :
    ((create_store c env n e apw dpw ts).1 = (create_store c env n e apw dpw' ts).1 ∧
     (create_store c env n e apw dpw ts).2.1 = (create_store c env n e apw dpw' ts).2.1) ∧
    (∀ r, (create_store c env n e apw dpw ts).1 = .ok r →
      r.credentials = ⟨"admin", apw⟩) := by
  by_cases hh : env.helmInstalled
  · cases hns : namespace_exists c n with
    | true => simp [create_store, hh, hns]
    | false =>
        cases hr : env.helmResult with
        | error s => simp [create_store, hh, hns, hr]
        | ok u => simp [create_store, hh, hns, hr]
  · simp [create_store, hh]

/-- Claim C9, witness: at the `shop` fixture, two different database
passwords give the same result, and the credentials hold the admin
password. -/
theorem c9_db_password_not_returned_witness :
    (create_store [] envAllOk "shop" "a@b.c" "apw" "dpw" "ts").1 =
      (create_store [] envAllOk "shop" "a@b.c" "apw" "other" "ts").1 ∧
    shopResult.credentials = ⟨"admin", "apw"⟩ := by
  obtain ⟨⟨h1, _⟩, h2⟩ :=
    c9_db_password_not_returned [] envAllOk "shop" "a@b.c" "apw" "ts" "dpw" "other"
  exact ⟨h1, h2 shopResult rfl⟩

/-- Claim C2, counterexample: when all five plugin-install attempts fail
by returning false (no exception raised — e.g. the pod lookup fails each
time), five attempts are made and creation still succeeds, but the trace
holds no sleep at all: the claimed 10-second pause between attempts does
not happen, because `time.sleep(10)` sits only in the exception handler
of the retry loop (`store_manager.py` line 135). -/
theorem c2_counterexample_no_pause :
    (create_store [] envAllFail "shop" "a@b.c" "apw" "dpw" "ts").2.2.countP aIsWoo = 5 ∧
    (create_store [] envAllFail "shop" "a@b.c" "apw" "dpw" "ts").2.2.countP aIsSleep = 0 ∧
    (create_store [] envAllFail "shop" "a@b.c" "apw" "dpw" "ts").1 = .ok shopResult := by
  refine ⟨?_, ?_, ?_⟩ <;> rfl

/-- Claim C2 (amended): the plugin install is attempted up to 5 times
and exhausting all 5 attempts does not fail creation — the payload still
carries store name, namespace, URL and credentials; a 10-second pause
separates attempts only when the failed attempt raised an exception and
was not the final attempt, while an attempt that returns failure without
raising is retried with no pause. -/
theorem c2_amended_retry_exhaustion (c : Cluster) (env : CreateEnv)
    (n e apw dpw ts : String)
    (hh : env.helmInstalled = true) (hns : namespace_exists c n = false)
    (hr : env.helmResult = .ok ()) (hw : ∀ i, i < 5 → env.woo i ≠ .ok) :
    ∃ r c2 acts, create_store c env n e apw dpw ts = (.ok r, c2, acts) ∧
      r.store_name = n ∧ r.namespace_ = "store-" ++ n ∧
      r.url = "http://" ++ n ++ ".localhost" ∧
      r.credentials = ⟨"admin", apw⟩ ∧
      r.woocommerce_installed = true ∧
      acts.countP aIsWoo = 5 ∧
      acts.countP aIsSleep =
        ((List.range' 0 5).filter
          (fun j => wooIsExn (env.woo j) && decide (j < 4))).length := by
  obtain ⟨hb, hwc, hsc⟩ :=
    wooLoopGo_no_ok env.woo 5 5 0 (fun i _ h2 => hw i (by omega))
  refine ⟨{ store_name := n, namespace_ := nsName n,
            url := "http://" ++ n ++ ".localhost",
            admin_url := "http://" ++ n ++ ".localhost/wp-admin",
            owner_email := e, created_at := ts,
            credentials := ⟨"admin", apw⟩, woocommerce_installed := true },
      c ++ [created_ns_rec n e ts],
      [Action.createNs (nsName n), Action.helmInstall (helm_install_cmd n e apw dpw)]
        ++ (wooLoopGo env.woo 5 0 5).2 ++ [],
      ?_, rfl, rfl, rfl, rfl, rfl, ?_, ?_⟩
  · simp [create_store, hh, hns, hr, wooLoop, hb]
  · simp [List.countP_append, aIsWoo, hwc]
  · simp [List.countP_append, aIsSleep, hsc]

/-- Claim C2 (amended), witness: an environment whose five attempts all
fail without raising satisfies the hypotheses; the concrete trace shows
five attempts and zero sleeps. -/
theorem c2_amended_retry_exhaustion_witness :
    (create_store [] envAllFail "shop" "a@b.c" "apw" "dpw" "ts").2.2.countP aIsSleep =
      ((List.range' 0 5).filter
        (fun j => wooIsExn (envAllFail.woo j) && decide (j < 4))).length := by
  obtain ⟨r, c2, acts, heq, -, -, -, -, -, -, hs⟩ :=
    c2_amended_retry_exhaustion [] envAllFail "shop" "a@b.c" "apw" "dpw" "ts"
      rfl rfl rfl (fun i _ h => WooOutcome.noConfusion h)
  rw [heq]
  exact hs

/-- Claim C5: get-store-status is absent when the namespace is missing;
otherwise it carries the pod snapshot list and a ready flag that is true
exactly when the list is nonempty and every snapshot reports ready. -/
theorem c5_get_store_status (c : Cluster) (n : String) :
    (namespace_exists c n = false → get_store_status c n = .absent) ∧
    (namespace_exists c n = true →
      ∃ ready, get_store_status c n = .present (get_pods_in_namespace c n) ready ∧
        (ready = true ↔ get_pods_in_namespace c n ≠ [] ∧
          ∀ p ∈ get_pods_in_namespace c n, p.ready = true)) := by
  constructor
  · intro h
    simp [get_store_status, h]
  · intro h
    refine ⟨(if (get_pods_in_namespace c n).isEmpty then false
             else (get_pods_in_namespace c n).all (fun p => p.ready)), ?_, ?_⟩
    · simp [get_store_status, h]
    · cases hp : get_pods_in_namespace c n with
      | nil => simp [hp]
      | cons p rest => simp [hp, List.all_eq_true]

/-- Claim C5, witness: one all-ready pod gives an existing status with a
true ready flag. -/
theorem c5_get_store_status_witness :
    get_store_status [nsShopPods] "shop" =
      .present (get_pods_in_namespace [nsShopPods] "shop") true := by
  obtain ⟨ready, heq, hiff⟩ := (c5_get_store_status [nsShopPods] "shop").2 (by decide)
  have hr : ready = true := hiff.mpr ⟨by decide, by decide⟩
  rw [hr] at heq
  exact heq

/-- Claim C6: a delete request for a name with no matching namespace
returns 404, leaves the cluster untouched, and issues no
package-manager or namespace call (empty trace: the pre-check
short-circuits before `StoreManager.delete_store` runs). -/
theorem c6_delete_missing_store (c : Cluster) (hu : Bool) (n : String)
    (h : namespace_exists c n = false) :
    delete_store_endpoint true c hu n =
      (.err 404 ("Store " ++ sq ++ n ++ sq ++ " not found"), c, []) := by
  simp [delete_store_endpoint, h]

/-- Claim C6, witness: deleting `shop` on an empty cluster. -/
theorem c6_delete_missing_store_witness :
    delete_store_endpoint true [] true "shop" =
      (.err 404 ("Store " ++ sq ++ "shop" ++ sq ++ " not found"), [], []) :=
  c6_delete_missing_store [] true "shop" (by decide)

/-- Claim C7: list-stores drops exactly the namespaces whose phase is
`Terminating` (even though they carry the store label and are returned
by the wrapper) and maps every remaining row to the summary with name,
namespace, URL, admin URL, raw creation timestamp, annotation-derived
creation timestamp and phase. -/
theorem c7_list_stores (c : Cluster) :
    (∀ s ∈ list_stores c, s.status ≠ "Terminating") ∧
    (∀ info ∈ list_store_namespaces c, info.status ≠ "Terminating" →
      StoreSummary.mk info.store_name info.name
        ("http://" ++ info.store_name ++ ".localhost")
        ("http://" ++ info.store_name ++ ".localhost/wp-admin")
        info.created info.created_at info.status ∈ list_stores c) ∧
    (∀ s ∈ list_stores c, ∃ info, info ∈ list_store_namespaces c ∧
      info.status ≠ "Terminating" ∧
      s = StoreSummary.mk info.store_name info.name
        ("http://" ++ info.store_name ++ ".localhost")
        ("http://" ++ info.store_name ++ ".localhost/wp-admin")
        info.created info.created_at info.status) := by
  refine ⟨?_, ?_, ?_⟩
  · intro s hs
    obtain ⟨ns, hns, rfl⟩ := List.mem_map.mp hs
    obtain ⟨h1, h2⟩ := List.mem_filter.mp hns
    simpa using h2
  · intro info hinfo hterm
    exact List.mem_map.mpr
      ⟨info, List.mem_filter.mpr ⟨hinfo, by simpa using hterm⟩, rfl⟩
  · intro s hs
    obtain ⟨ns, hns, rfl⟩ := List.mem_map.mp hs
    obtain ⟨h1, h2⟩ := List.mem_filter.mp hns
    exact ⟨ns, h1, by simpa using h2, rfl⟩

/-- Claim C7, witness: with one active and one terminating store
namespace, the active summary is listed. -/
theorem c7_list_stores_witness :
    NsInfo.mk "store-shop" "shop" none none "Active" ∈
      list_store_namespaces [nsShop, nsTermX] ∧
    StoreSummary.mk "shop" "store-shop" ("http://" ++ "shop" ++ ".localhost")
      ("http://" ++ "shop" ++ ".localhost/wp-admin") none none "Active" ∈
      list_stores [nsShop, nsTermX] :=
  ⟨by decide, (c7_list_stores [nsShop, nsTermX]).2.1
    (NsInfo.mk "store-shop" "shop" none none "Active") (by decide) (by decide)⟩

/-- Claim C8: the wrapper create-namespace call returns true on success,
false (not an error) on the 409 duplicate-resource signal, re-raises any
other control-plane failure, and submits a namespace whose labels are
the defaults `app=store`, `store-name=<name>`,
`managed-by=store-provisioning-platform` overridden by the caller's
labels on key collision. -/
theorem c8_create_namespace (n : String) (L : Dict) (A : Option Dict) (api : ApiResult)
    (hnd : (L.map Prod.fst).Nodup) :
    (api = .success → create_namespace n (some L) A api = .ok true) ∧
    (∀ m, api = .apiError 409 m → create_namespace n (some L) A api = .ok false) ∧
    (∀ s m, api = .apiError s m → s ≠ 409 →
      create_namespace n (some L) A api = .error (s, m)) ∧
    (create_namespace_body n (some L) A).name = "store-" ++ n ∧
    (∀ k v, (k, v) ∈ L →
      dictGet (create_namespace_body n (some L) A).labels k = some v) ∧
    (∀ k, k ∉ L.map Prod.fst →
      dictGet (create_namespace_body n (some L) A).labels k =
        dictGet (default_labels n) k) ∧
    dictGet (default_labels n) "app" = some "store" ∧
    dictGet (default_labels n) "store-name" = some n ∧
    dictGet (default_labels n) "managed-by" = some "store-provisioning-platform" := by
  refine ⟨?_, ?_, ?_, rfl, ?_, ?_, rfl, rfl, rfl⟩
  · intro h
    subst h
    rfl
  · intro m h
    subst h
    rfl
  · intro s m h hne
    subst h
    simp [create_namespace, beq_iff_eq, hne]
  · intro k v hkv
    simpa [create_namespace_body] using
      dictGet_update_of_mem L (default_labels n) k v hnd hkv
  · intro k hk
    simpa [create_namespace_body] using
      dictGet_update_of_not_mem L (default_labels n) k hk

/-- Claim C8, witness: a caller label set overriding `app` wins the
collision while untouched defaults survive, and the three outcome
conjuncts hold at concrete api results. -/
theorem c8_create_namespace_witness :
    create_namespace "shop" (some [("app", "mine")]) none .success = .ok true ∧
    create_namespace "shop" (some [("app", "mine")]) none (.apiError 409 "dup") =
      .ok false ∧
    create_namespace "shop" (some [("app", "mine")]) none (.apiError 500 "boom") =
      .error (500, "boom") ∧
    dictGet (create_namespace_body "shop" (some [("app", "mine")]) none).labels "app" =
      some "mine" ∧
    dictGet (create_namespace_body "shop" (some [("app", "mine")]) none).labels
      "managed-by" = some "store-provisioning-platform" := by
  obtain ⟨h1, h2, h3, -, h5, h6, -, -, h9⟩ :=
    c8_create_namespace "shop" [("app", "mine")] none (.apiError 500 "boom") (by decide)
  refine ⟨?_, ?_, h3 500 "boom" rfl (by decide), ?_, ?_⟩
  · exact (c8_create_namespace "shop" [("app", "mine")] none .success (by decide)).1 rfl
  · exact ((c8_create_namespace "shop" [("app", "mine")] none (.apiError 409 "dup")
      (by decide)).2.1) "dup" rfl
  · exact h5 "app" "mine" (by decide)
  · rw [h6 "managed-by" (by decide)]
    exact h9

/-- Claim C10: the store-name format validation guards only creation:
an invalid name is rejected with 422 before the create handler acts,
while the status and delete endpoints perform no name validation for
that same invalid name — they go straight to the namespace
`store-<name>`, answering from its existence and even deleting it. -/
theorem c10_validation_only_on_create (c : Cluster) (s : String)
    (hinv : valid_store_name s = false) :
    (∀ env emailOk e apw dpw ts,
      create_store_endpoint true c env s emailOk e apw dpw ts =
        (.err 422 unprocessable_detail, c, [])) ∧
    (namespace_exists c s = false →
      get_store_status_endpoint true c s =
        .err 404 ("Store " ++ sq ++ s ++ sq ++ " not found")) ∧
    (∀ pods ready, get_store_status c s = .present pods ready →
      get_store_status_endpoint true c s =
        .ok 200 (GetStoreBody.mk s ("store-" ++ s) (.present pods ready))) ∧
    (∀ hu, namespace_exists c s = false →
      delete_store_endpoint true c hu s =
        (.err 404 ("Store " ++ sq ++ s ++ sq ++ " not found"), c, [])) ∧
    (∀ hu, namespace_exists c s = true →
      Action.deleteNs ("store-" ++ s) ∈ (delete_store_endpoint true c hu s).2.2) := by
  refine ⟨?_, ?_, ?_, ?_, ?_⟩
  · intro env emailOk e apw dpw ts
    simp [create_store_endpoint, hinv]
  · intro h
    simp [get_store_status_endpoint, get_store_status, h]
  · intro pods ready h
    simp [get_store_status_endpoint, h, nsName]
  · intro hu h
    simp [delete_store_endpoint, h]
  · intro hu h
    simp [delete_store_endpoint, h, delete_store, delete_namespace, nsName]

/-- Claim C10, witness: the invalid name `AB` is still deleted when its
namespace exists — the delete endpoint issued the namespace call. -/
theorem c10_validation_only_on_create_witness :
    valid_store_name "AB" = false ∧
    Action.deleteNs ("store-" ++ "AB") ∈
      (delete_store_endpoint true [nsAB] true "AB").2.2 :=
  ⟨by decide, (c10_validation_only_on_create [nsAB] "AB" (by decide)).2.2.2.2
    true (by decide)⟩

end Urumi
